import Mathlib

/-!
Shallow embedding of the Elasticsearch predicate-pushdown translator
(`be/src/exec/es/es_predicate.cpp`) of Apache Doris, together with proofs
about its behaviour.

The translator consumes an expression tree (a conjunct of a WHERE clause),
recursively decomposes OR-compounds, classifies each leaf into one of the
supported predicate shapes (binary comparison, `esquery` native function,
`like` pattern match, IN / NOT IN set membership), resolves column
references against a tuple descriptor, and appends normalized predicate
descriptors to an ordered disjunct list.
-/

namespace EsPred

/-- Model of `PrimitiveType` from the engine's type system (the slice the translator
uses). Mirrors the `TYPE_*` enumerators referenced by `es_predicate.cpp`. -/
inductive PrimitiveType where
  | TYPE_TINYINT
  | TYPE_SMALLINT
  | TYPE_INT
  | TYPE_BIGINT
  | TYPE_LARGEINT
  | TYPE_FLOAT
  | TYPE_DOUBLE
  | TYPE_CHAR
  | TYPE_VARCHAR
  | TYPE_DATE
  | TYPE_DATETIME
  | TYPE_BOOLEAN
  | TYPE_DECIMAL
  | TYPE_DECIMALV2
  | TYPE_NULL
  deriving DecidableEq, Repr, Inhabited

/-- Modelled from the spec: `TypeDescriptor::is_date_type` lives outside the
translated file; the spec describes the date family as the pure date and
date-time types. -/
def is_date_type (t : PrimitiveType) : Bool :=
  t == PrimitiveType.TYPE_DATE || t == PrimitiveType.TYPE_DATETIME

/-- Modelled from the spec: `TypeDescriptor::is_string_type` lives outside
the translated file; the spec describes the string family as the
string/char types. -/
def is_string_type (t : PrimitiveType) : Bool :=
  t == PrimitiveType.TYPE_VARCHAR || t == PrimitiveType.TYPE_CHAR

/-- The expression-tree node kinds (`TExprNodeType`) consulted by the
translator, plus the literal node kinds listed in `is_literal_node`. -/
inductive TExprNodeType where
  | BINARY_PRED
  | SLOT_REF
  | FUNCTION_CALL
  | IN_PRED
  | COMPOUND_PRED
  | LIKE_PRED
  | CAST_EXPR
  | BOOL_LITERAL
  | INT_LITERAL
  | LARGE_INT_LITERAL
  | FLOAT_LITERAL
  | DECIMAL_LITERAL
  | STRING_LITERAL
  | DATE_LITERAL
  | ARITHMETIC_EXPR
  | CASE_EXPR
  deriving DecidableEq, Repr, Inhabited

/-- The operator codes (`TExprOpcode`) consulted by the translator. -/
inductive TExprOpcode where
  | COMPOUND_OR
  | COMPOUND_AND
  | FILTER_IN
  | FILTER_NOT_IN
  | FILTER_NEW_IN
  | CAST
  | EQ
  | NE
  | LT
  | LE
  | GT
  | GE
  | INVALID_OPCODE
  deriving DecidableEq, Repr, Inhabited

/-- Modelled from the spec: `DateTimeValue` (from `runtime/datetime_value.h`,
not part of the translated file) carries a calendar date, a time of day and
an internal time-type flag; a pure date renders as the calendar date only. -/
structure DateTimeValue where
  year : Nat
  month : Nat
  day : Nat
  hour : Nat
  minute : Nat
  second : Nat
  /-- internal time type: `true` models `TIME_DATE`, `false` `TIME_DATETIME` -/
  is_time_date : Bool
  deriving DecidableEq, Repr, Inhabited

/-- Modelled from the spec: `DateTimeValue::cast_to_date` truncates to
calendar-date precision, dropping the time of day. -/
def DateTimeValue.cast_to_date (d : DateTimeValue) : DateTimeValue :=
  { d with hour := 0, minute := 0, second := 0, is_time_date := true }

/-- Zero-pad a natural number to two digits. -/
def pad2 (n : Nat) : String :=
  if n < 10 then "0" ++ toString n else toString n

/-- Zero-pad a natural number to four digits. -/
def pad4 (n : Nat) : String :=
  if n < 10 then "000" ++ toString n
  else if n < 100 then "00" ++ toString n
  else if n < 1000 then "0" ++ toString n
  else toString n

/-- Modelled from the spec: `DateTimeValue::to_string` renders the calendar
date, followed by the time of day unless the internal time type is the pure
date type. -/
def DateTimeValue.to_string (d : DateTimeValue) : String :=
  let datePart := pad4 d.year ++ "-" ++ pad2 d.month ++ "-" ++ pad2 d.day
  if d.is_time_date then datePart
  else datePart ++ " " ++ pad2 d.hour ++ ":" ++ pad2 d.minute ++ ":" ++ pad2 d.second

/-- The raw payload behind the `void*` a literal value points at, decoded
per semantic type by the `ExtLiteral` accessors. -/
inductive RawValue where
  | rInt (n : Int)
  | rBool (b : Bool)
  | rStr (s : String)
  | rDateTime (d : DateTimeValue)
  | rDecimal (s : String)
  deriving DecidableEq, Repr, Inhabited

/-- Decode a raw payload as a `DateTimeValue` (the reinterpret-cast inside
`ExtLiteral::get_date_string`); a mismatched payload is a contract
violation in the source (`DCHECK`) and yields an arbitrary value here. -/
def RawValue.asDateTime : RawValue → DateTimeValue
  | RawValue.rDateTime d => d
  | _ => default

/-- Model of `ExtLiteral`: a semantic type tag plus the raw value it points at. -/
structure ExtLiteral where
  lit_type : PrimitiveType
  lit_value : RawValue
  deriving DecidableEq, Repr, Inhabited

/-- Model of `ExtLiteral::get_date_string`: a `TYPE_DATE` value is first truncated to
calendar-date precision via `cast_to_date`, then formatted; a
`TYPE_DATETIME` value is formatted as is. -/
def ExtLiteral.get_date_string (l : ExtLiteral) : String :=
  let date_value := l.lit_value.asDateTime
  let date_value :=
    if l.lit_type == PrimitiveType.TYPE_DATE then date_value.cast_to_date else date_value
  date_value.to_string

/-- The scalar data of one expression node: kind tag, operator code, result
type, function name, slot identifier (meaningful for `SLOT_REF` nodes),
literal payload, and — for `InPredicate` nodes — the backing value set and
the negation flag. -/
structure ExprData where
  node_type : TExprNodeType
  op : TExprOpcode
  etype : PrimitiveType
  fname : String
  slot_id : Int
  value : RawValue
  hset : List (Option RawValue)
  not_in : Bool
  deriving DecidableEq, Repr, Inhabited

/-- An expression-tree node: its scalar data plus its ordered children. -/
inductive Expr where
  | node (d : ExprData) (children : List Expr)

/-- The scalar data of an expression node. -/
def Expr.data : Expr → ExprData
  | Expr.node d _ => d

/-- The ordered children of an expression node. -/
def Expr.children : Expr → List Expr
  | Expr.node _ cs => cs

instance : Inhabited Expr := ⟨Expr.node default []⟩

/-- Model of `Expr::get_child(i)` — fetch the i-th child (out-of-range access is
undefined behaviour in the source; here it yields the default node). -/
def Expr.get_child (e : Expr) (i : Nat) : Expr :=
  e.children.getD i default

/-- Model of `expr->node_type()`. -/
def Expr.node_type (e : Expr) : TExprNodeType := e.data.node_type

/-- Model of `expr->op()`. -/
def Expr.op (e : Expr) : TExprOpcode := e.data.op

/-- Model of `expr->type().type`. -/
def Expr.etype (e : Expr) : PrimitiveType := e.data.etype

/-- Model of `expr->fn().name.function_name`. -/
def Expr.fname (e : Expr) : String := e.data.fname

/-- Model of `slotRef->slot_id()` (the source reads this field through a C-style
cast of the child pointer). -/
def Expr.slot_id (e : Expr) : Int := e.data.slot_id

/-- Modelled from the spec: `ExprContext::get_value(expr, NULL)` (outside
the translated file) extracts a literal node's stored payload. -/
def get_value (e : Expr) : RawValue := e.data.value

/-- Model of `Expr::type_without_cast` (modelled from the spec: a column reference
"optionally wrapped in a type cast"): skip nodes whose opcode is `CAST` and
return the node kind underneath. -/
def type_without_cast : Expr → TExprNodeType
  | Expr.node d cs =>
    if d.op == TExprOpcode.CAST then
      match cs with
      | c :: _ => type_without_cast c
      | [] => d.node_type
    else d.node_type
termination_by structural e => e

/-- A slot (column) descriptor: stable identifier, column name, type. -/
structure SlotDescriptor where
  id : Int
  col_name : String
  ptype : PrimitiveType
  deriving DecidableEq, Repr, Inhabited

/-- A tuple descriptor: the ordered schema of slots. -/
structure TupleDescriptor where
  slots : List SlotDescriptor
  deriving DecidableEq, Repr, Inhabited

/-- Model of `Status`: OK or an error with a message. -/
inductive Status where
  | OK
  | Error (msg : String)
  deriving DecidableEq, Repr, Inhabited

/-- Model of `Status::ok()`. -/
def Status.ok : Status → Bool
  | Status.OK => true
  | Status.Error _ => false

/-- An external column descriptor (the reserved, currently unused column
list of `ExtFunction`). -/
structure ExtColumnDesc where
  name : String
  ctype : PrimitiveType
  deriving DecidableEq, Repr, Inhabited

/-- The closed set of normalized predicate descriptors (`ExtPredicate` and
its variants `ExtBinaryPredicate`, `ExtLikePredicate`, `ExtInPredicate`,
`ExtFunction`). -/
inductive ExtPredicate where
  | binary (node_type : TExprNodeType) (col_name : String) (col_type : PrimitiveType)
      (op : TExprOpcode) (value : ExtLiteral)
  | like (node_type : TExprNodeType) (col_name : String) (col_type : PrimitiveType)
      (value : ExtLiteral)
  | inPred (node_type : TExprNodeType) (is_not_in : Bool) (col_name : String)
      (col_type : PrimitiveType) (values : List ExtLiteral)
  | func (node_type : TExprNodeType) (func_name : String) (cols : List ExtColumnDesc)
      (values : List ExtLiteral)
  deriving DecidableEq, Repr, Inhabited

/-- The mutable state of one `EsPredicate` instance during a translation
pass: the disjunct list `_disjuncts` and the sticky `_es_query_status`. -/
structure TState where
  disjuncts : List ExtPredicate
  es_query_status : Status
  deriving DecidableEq, Repr, Inhabited

/-- The read-only context of a translation: the schema
(`EsPredicate::_tuple_desc`) and the external backend-validation hook
(`BooleanQueryBuilder::check_es_query`, an external collaborator whose
verdict is a parameter here). -/
structure Ctx where
  tuple_desc : TupleDescriptor
  check_es_query : ExtPredicate → Status

/-- Model of `ignore_cast(slot, expr)`: a type mismatch between the slot and the
column-side expression is tolerated only when both are date-family types or
both are string-family types. -/
def ignore_cast (slotType exprType : PrimitiveType) : Bool :=
  if is_date_type slotType && is_date_type exprType then true
  else if is_string_type slotType && is_string_type exprType then true
  else false

/-- Model of `is_literal_node(expr)`: the closed set of literal node kinds. -/
def is_literal_node (e : Expr) : Bool :=
  match e.node_type with
  | TExprNodeType.BOOL_LITERAL => true
  | TExprNodeType.INT_LITERAL => true
  | TExprNodeType.LARGE_INT_LITERAL => true
  | TExprNodeType.FLOAT_LITERAL => true
  | TExprNodeType.DECIMAL_LITERAL => true
  | TExprNodeType.STRING_LITERAL => true
  | TExprNodeType.DATE_LITERAL => true
  | _ => false

/-- Model of `EsPredicate::is_match_func`: a `FUNCTION_CALL` node whose function name
is `esquery`. -/
def is_match_func (e : Expr) : Bool :=
  e.node_type == TExprNodeType.FUNCTION_CALL && e.fname == "esquery"

/-- Model of `EsPredicate::get_slot_desc`: scan the schema in order and return the
first slot whose stable identifier equals the reference's identifier. -/
def get_slot_desc (td : TupleDescriptor) (sid : Int) : Option SlotDescriptor :=
  td.slots.find? (fun slot => slot.id == sid)

/-- The `while (iter->has_next())` loop of the `IN_PRED` case: walk the
backing value set in order, fail on the first null element, otherwise wrap
each element as an `ExtLiteral` tagged with the resolved column's type. -/
def extract_in_values (t : PrimitiveType) : List (Option RawValue) → Option (List ExtLiteral)
  | [] => some []
  | none :: _ => none
  | some v :: rest => (extract_in_values t rest).map (fun vs => ExtLiteral.mk t v :: vs)

/-- The `ExtFunction` predicate built by the `esquery` case: the function's
declared name, no column references, and the literal payload of child 1. -/
def esquery_predicate (e : Expr) : ExtPredicate :=
  ExtPredicate.func TExprNodeType.FUNCTION_CALL e.fname []
    [ExtLiteral.mk (e.get_child 1).etype (get_value (e.get_child 1))]

/-- Model of `EsPredicate::build_disjuncts_list(const Expr*)`: recursive
classification of one conjunct. Returns the updated translator state and
the `Status` of the call, mirroring the source's branch order: binary
predicate, `esquery` match function, `like` function call, IN predicate,
OR compound, otherwise failure. -/
def build_disjuncts_list (ctx : Ctx) : Expr → TState → TState × Status
  | conjunct@(Expr.node d cs), st =>
    if d.node_type == TExprNodeType.BINARY_PRED then
      if cs.length != 2 then
        (st, Status.Error "build disjuncts failed: number of childs is not 2")
      else
        let c0 := conjunct.get_child 0
        let c1 := conjunct.get_child 1
        let sel : Option (Expr × Expr) :=
          if c0.node_type == TExprNodeType.SLOT_REF then some (c1, c0)
          else if c1.node_type == TExprNodeType.SLOT_REF then some (c0, c1)
          else none
        match sel with
        | none => (st, Status.Error "build disjuncts failed: no SLOT_REF child")
        | some (expr, slotRef) =>
          match get_slot_desc ctx.tuple_desc slotRef.slot_id with
          | none => (st, Status.Error "build disjuncts failed: slot_desc is null")
          | some slot_desc =>
            if !is_literal_node expr then
              (st, Status.Error "build disjuncts failed: expr is not literal type")
            else
              let literal := ExtLiteral.mk expr.etype (get_value expr)
              let predicate := ExtPredicate.binary TExprNodeType.BINARY_PRED
                slot_desc.col_name slot_desc.ptype d.op literal
              ({ st with disjuncts := st.disjuncts ++ [predicate] }, Status.OK)
    else if is_match_func conjunct then
      let predicate := esquery_predicate conjunct
      if st.es_query_status.ok then
        let es_query_status := ctx.check_es_query predicate
        if !es_query_status.ok then
          ({ st with es_query_status := es_query_status }, es_query_status)
        else
          ({ es_query_status := es_query_status, disjuncts := st.disjuncts ++ [predicate] },
            Status.OK)
      else
        ({ st with disjuncts := st.disjuncts ++ [predicate] }, Status.OK)
    else if d.node_type == TExprNodeType.FUNCTION_CALL then
      if d.fname != "like" then
        (st, Status.Error "build disjuncts failed: function name is not like")
      else
        let c0 := conjunct.get_child 0
        let c1 := conjunct.get_child 1
        let sel : Option (Expr × Expr) :=
          if c0.node_type == TExprNodeType.SLOT_REF then some (c1, c0)
          else if c1.node_type == TExprNodeType.SLOT_REF then some (c0, c1)
          else none
        match sel with
        | none => (st, Status.Error "build disjuncts failed: no SLOT_REF child")
        | some (expr, slotRef) =>
          match get_slot_desc ctx.tuple_desc slotRef.slot_id with
          | none => (st, Status.Error "build disjuncts failed: slot_desc is null")
          | some slot_desc =>
            if expr.etype != PrimitiveType.TYPE_VARCHAR
                && expr.etype != PrimitiveType.TYPE_CHAR then
              (st, Status.Error "build disjuncts failed: like value is not a string")
            else
              let literal := ExtLiteral.mk expr.etype (get_value expr)
              let predicate := ExtPredicate.like TExprNodeType.LIKE_PRED
                slot_desc.col_name slot_desc.ptype literal
              ({ st with disjuncts := st.disjuncts ++ [predicate] }, Status.OK)
    else if d.node_type == TExprNodeType.IN_PRED then
      if d.op != TExprOpcode.FILTER_IN && d.op != TExprOpcode.FILTER_NOT_IN then
        (st, Status.Error
          "build disjuncts failed: opcode in IN_PRED is neither FILTER_IN nor FILTER_NOT_IN")
      else
        let c0 := conjunct.get_child 0
        if type_without_cast c0 != TExprNodeType.SLOT_REF then
          (st, Status.Error "build disjuncts failed")
        else
          match get_slot_desc ctx.tuple_desc c0.slot_id with
          | none => (st, Status.Error "build disjuncts failed: slot_desc is null")
          | some slot_desc =>
            if c0.etype != slot_desc.ptype
                && !ignore_cast slot_desc.ptype c0.etype then
              (st, Status.Error "build disjuncts failed")
            else
              match extract_in_values slot_desc.ptype d.hset with
              | none =>
                (st, Status.Error "build disjuncts failed: hybird set has a null value")
              | some in_pred_values =>
                let predicate := ExtPredicate.inPred TExprNodeType.IN_PRED d.not_in
                  slot_desc.col_name slot_desc.ptype in_pred_values
                ({ st with disjuncts := st.disjuncts ++ [predicate] }, Status.OK)
    else if d.node_type == TExprNodeType.COMPOUND_PRED then
      if d.op != TExprOpcode.COMPOUND_OR then
        (st, Status.Error "build disjuncts failed: op is not COMPOUND_OR")
      else
        match cs with
        | c0 :: c1 :: _ =>
          let r0 := build_disjuncts_list ctx c0 st
          if !r0.2.ok then (r0.1, r0.2)
          else
            let r1 := build_disjuncts_list ctx c1 r0.1
            if !r1.2.ok then (r1.1, r1.2)
            else (r1.1, Status.OK)
        | _ => (st, Status.Error "build disjuncts failed: compound node lacks two children")
    else
      (st, Status.Error "build disjuncts failed: node type is not supported")
termination_by structural e _st => e

/-- Model of `EsPredicate::build_disjuncts_list()` — the public entry point starts
from the conjunct root with the instance's current state. -/
def translate (ctx : Ctx) (root : Expr) : TState × Status :=
  build_disjuncts_list ctx root { disjuncts := [], es_query_status := Status.OK }

/-! ### Derived notions used by the statements -/

/-- An OR-compound node: `COMPOUND_PRED` with opcode `COMPOUND_OR` over two
children (the shape the translator recurses into). -/
def orNode (l r : Expr) : Expr :=
  Expr.node { node_type := TExprNodeType.COMPOUND_PRED
              op := TExprOpcode.COMPOUND_OR
              etype := PrimitiveType.TYPE_BOOLEAN
              fname := ""
              slot_id := 0
              value := RawValue.rBool false
              hset := []
              not_in := false } [l, r]

/-- Whether a node is an OR-compound (the recursive case of the translator). -/
def is_or_compound (e : Expr) : Bool :=
  e.node_type == TExprNodeType.COMPOUND_PRED && e.op == TExprOpcode.COMPOUND_OR

/-- A left-nested OR chain: `leftChain e [x1, x2] = (e OR x1) OR x2`.
Its left-to-right leaf order is `e :: xs`. -/
def leftChain (e : Expr) : List Expr → Expr
  | [] => e
  | x :: xs => leftChain (orNode e x) xs

/-- A right-nested OR chain: `rightChain e [x1, x2] = e OR (x1 OR x2)`.
Its left-to-right leaf order is `e :: xs`. -/
def rightChain (e : Expr) : List Expr → Expr
  | [] => e
  | x :: xs => orNode e (rightChain x xs)

/-- The left-to-right leaf conjuncts of a tree of OR-compounds. -/
def leaves : Expr → List Expr
  | e@(Expr.node d cs) =>
    if d.node_type == TExprNodeType.COMPOUND_PRED && d.op == TExprOpcode.COMPOUND_OR then
      match cs with
      | c0 :: c1 :: _ => leaves c0 ++ leaves c1
      | _ => [e]
    else [e]
termination_by structural e => e

/-- Model of `e` classifies successfully from every clean state, appending exactly
the descriptors `ds` to the disjunct list and leaving the status OK. -/
def producesOk (ctx : Ctx) (e : Expr) (ds : List ExtPredicate) : Prop :=
  ∀ st : TState, st.es_query_status = Status.OK →
    build_disjuncts_list ctx e st
      = ({ disjuncts := st.disjuncts ++ ds, es_query_status := Status.OK }, Status.OK)

/-- A leaf conjunct that classifies successfully into one descriptor. -/
def leafOk (ctx : Ctx) (e : Expr) (d : ExtPredicate) : Prop :=
  producesOk ctx e [d]

/-! ### Concrete instances used to exercise the translator -/

/-- A neutral expression-node payload; concrete nodes override the fields
they use. -/
def baseData : ExprData :=
  { node_type := TExprNodeType.CASE_EXPR
    op := TExprOpcode.INVALID_OPCODE
    etype := PrimitiveType.TYPE_NULL
    fname := ""
    slot_id := 0
    value := RawValue.rInt 0
    hset := []
    not_in := false }

/-- A column-reference node. -/
def slotRefE (sid : Int) (ty : PrimitiveType) : Expr :=
  Expr.node { baseData with node_type := TExprNodeType.SLOT_REF, etype := ty, slot_id := sid } []

/-- An integer-literal node. -/
def intLitE (ty : PrimitiveType) (n : Int) : Expr :=
  Expr.node
    { baseData with
      node_type := TExprNodeType.INT_LITERAL
      etype := ty
      value := RawValue.rInt n } []

/-- A string-literal node. -/
def strLitE (s : String) : Expr :=
  Expr.node
    { baseData with
      node_type := TExprNodeType.STRING_LITERAL
      etype := PrimitiveType.TYPE_VARCHAR
      value := RawValue.rStr s } []

/-- A binary comparison node over two children. -/
def binPredE (op : TExprOpcode) (l r : Expr) : Expr :=
  Expr.node
    { baseData with
      node_type := TExprNodeType.BINARY_PRED
      op := op
      etype := PrimitiveType.TYPE_BOOLEAN } [l, r]

/-- A `like` function-call node over two children. -/
def likeE (l r : Expr) : Expr :=
  Expr.node
    { baseData with
      node_type := TExprNodeType.FUNCTION_CALL
      fname := "like"
      etype := PrimitiveType.TYPE_BOOLEAN } [l, r]

/-- The payload of an `esquery` function-call node. -/
def esqData : ExprData :=
  { baseData with
    node_type := TExprNodeType.FUNCTION_CALL
    fname := "esquery"
    etype := PrimitiveType.TYPE_BOOLEAN }

/-- The schema used by the concrete examples. -/
def sdPrice : SlotDescriptor := ⟨1, "price", PrimitiveType.TYPE_DOUBLE⟩

def sdName : SlotDescriptor := ⟨2, "name", PrimitiveType.TYPE_VARCHAR⟩

def sdCount : SlotDescriptor := ⟨3, "count_col", PrimitiveType.TYPE_INT⟩

def schemaW : TupleDescriptor := ⟨[sdPrice, sdName, sdCount]⟩

/-- Context whose backend-validation hook accepts everything. -/
def ctxOkHook : Ctx := ⟨schemaW, fun _ => Status.OK⟩

/-- Context whose backend-validation hook rejects everything. -/
def ctxRejectHook : Ctx := ⟨schemaW, fun _ => Status.Error "es query failed"⟩

/-- Model of `price > 10`. -/
def leafGtW : Expr :=
  binPredE TExprOpcode.GT (slotRefE 1 PrimitiveType.TYPE_DOUBLE)
    (intLitE PrimitiveType.TYPE_INT 10)

/-- Model of `price < 2`. -/
def leafLtW : Expr :=
  binPredE TExprOpcode.LT (slotRefE 1 PrimitiveType.TYPE_DOUBLE)
    (intLitE PrimitiveType.TYPE_INT 2)

/-- The descriptor produced for `price > 10`. -/
def descGtW : ExtPredicate :=
  ExtPredicate.binary TExprNodeType.BINARY_PRED "price" PrimitiveType.TYPE_DOUBLE
    TExprOpcode.GT ⟨PrimitiveType.TYPE_INT, RawValue.rInt 10⟩

/-- The descriptor produced for `price < 2`. -/
def descLtW : ExtPredicate :=
  ExtPredicate.binary TExprNodeType.BINARY_PRED "price" PrimitiveType.TYPE_DOUBLE
    TExprOpcode.LT ⟨PrimitiveType.TYPE_INT, RawValue.rInt 2⟩

/-- Model of `esquery(name, "query_payload")`. -/
def esqW : Expr :=
  Expr.node esqData [slotRefE 2 PrimitiveType.TYPE_VARCHAR, strLitE "query_payload"]

/-- A `like` node both of whose children are column references — the
non-column operand is not a literal node. -/
def likeNonLitW : Expr :=
  likeE (slotRefE 2 PrimitiveType.TYPE_VARCHAR) (slotRefE 2 PrimitiveType.TYPE_VARCHAR)

/-- The payload of an IN node over `count_col` with a null in the set. -/
def inNullData : ExprData :=
  { baseData with
    node_type := TExprNodeType.IN_PRED
    op := TExprOpcode.FILTER_IN
    hset := [some (RawValue.rInt 1), none, some (RawValue.rInt 3)] }

/-- The payload of an IN node over `count_col` with set `(1, 2, 3)`. -/
def inOkData : ExprData :=
  { baseData with
    node_type := TExprNodeType.IN_PRED
    op := TExprOpcode.FILTER_IN
    hset := [some (RawValue.rInt 1), some (RawValue.rInt 2), some (RawValue.rInt 3)] }

/-- A schema with two columns of identical name and different identifiers. -/
def twoNameSchema : TupleDescriptor :=
  ⟨[⟨10, "dup_name", PrimitiveType.TYPE_INT⟩, ⟨11, "dup_name", PrimitiveType.TYPE_BIGINT⟩]⟩

/-- A schema with two columns sharing one identifier. -/
def dupIdSchema : TupleDescriptor :=
  ⟨[⟨7, "first_col", PrimitiveType.TYPE_INT⟩, ⟨7, "second_col", PrimitiveType.TYPE_BIGINT⟩]⟩

/-! ### Supporting lemmas -/

@[simp] theorem node_type_node (d : ExprData) (cs : List Expr) :
    (Expr.node d cs).node_type = d.node_type := rfl

@[simp] theorem op_node (d : ExprData) (cs : List Expr) :
    (Expr.node d cs).op = d.op := rfl

@[simp] theorem etype_node (d : ExprData) (cs : List Expr) :
    (Expr.node d cs).etype = d.etype := rfl

@[simp] theorem fname_node (d : ExprData) (cs : List Expr) :
    (Expr.node d cs).fname = d.fname := rfl

@[simp] theorem slot_id_node (d : ExprData) (cs : List Expr) :
    (Expr.node d cs).slot_id = d.slot_id := rfl

@[simp] theorem children_node (d : ExprData) (cs : List Expr) :
    (Expr.node d cs).children = cs := rfl

@[simp] theorem get_value_node (d : ExprData) (cs : List Expr) :
    get_value (Expr.node d cs) = d.value := rfl

@[simp] theorem get_child_node (d : ExprData) (cs : List Expr) (i : Nat) :
    (Expr.node d cs).get_child i = cs.getD i default := rfl

theorem is_match_func_node (d : ExprData) (cs : List Expr) :
    is_match_func (Expr.node d cs)
      = (d.node_type == TExprNodeType.FUNCTION_CALL && d.fname == "esquery") := rfl

theorem leaves_of_not_or {e : Expr} (h : is_or_compound e = false) : leaves e = [e] := by
  obtain ⟨d, cs⟩ := e
  simp only [is_or_compound, Expr.node_type, Expr.op, Expr.data] at h
  match cs with
  | [] => rw [leaves.eq_def]; simp [h]
  | [c0] => rw [leaves.eq_def]; simp [h]
  | c0 :: c1 :: tail => rw [leaves.eq_1, h]; simp

theorem leaves_orNode (l r : Expr) : leaves (orNode l r) = leaves l ++ leaves r := by
  rw [orNode, leaves.eq_1]
  simp

/-- The OR-compound case concatenates the descriptors produced by its two
children, in order. -/
theorem producesOk_orNode {ctx : Ctx} {l r : Expr} {ds1 ds2 : List ExtPredicate}
    (h1 : producesOk ctx l ds1) (h2 : producesOk ctx r ds2) :
    producesOk ctx (orNode l r) (ds1 ++ ds2) := by
  intro st hst
  have e1 := h1 st hst
  have e2 := h2 { disjuncts := st.disjuncts ++ ds1, es_query_status := Status.OK } rfl
  simp [orNode, build_disjuncts_list, is_match_func, Expr.node_type, Expr.data, Expr.fname,
    e1, e2, Status.ok, List.append_assoc]

/-- Left-nested chains accumulate descriptors left to right. -/
theorem producesOk_leftChain {ctx : Ctx} {xs : List Expr} {ds : List ExtPredicate}
    (hxs : List.Forall₂ (leafOk ctx) xs ds) :
    ∀ (e : Expr) (ds0 : List ExtPredicate), producesOk ctx e ds0 →
      producesOk ctx (leftChain e xs) (ds0 ++ ds) := by
  induction hxs with
  | nil => intro e ds0 h; simpa [leftChain] using h
  | cons hx hrest ih =>
    intro e ds0 h
    rw [leftChain]
    have hcomb := producesOk_orNode h hx
    have := ih _ _ hcomb
    simpa [List.append_assoc] using this

/-- Right-nested chains accumulate descriptors left to right. -/
theorem producesOk_rightChain {ctx : Ctx} {xs : List Expr} {ds : List ExtPredicate}
    (hxs : List.Forall₂ (leafOk ctx) xs ds) :
    ∀ (e : Expr) (d : ExtPredicate), leafOk ctx e d →
      producesOk ctx (rightChain e xs) (d :: ds) := by
  induction hxs with
  | nil => intro e d h; simpa [rightChain] using h
  | cons hx hrest ih =>
    intro e d h
    rw [rightChain]
    have htail := ih _ _ hx
    have := producesOk_orNode h htail
    simpa using this

/-- The left-to-right leaves of a left-nested chain over non-compound
leaf conjuncts. -/
theorem leaves_leftChain {xs : List Expr} (hxs : ∀ l ∈ xs, is_or_compound l = false) :
    ∀ (e : Expr) (L : List Expr), leaves e = L → leaves (leftChain e xs) = L ++ xs := by
  induction xs with
  | nil => intro e L hL; simpa [leftChain] using hL
  | cons x xs ih =>
    intro e L hL
    rw [leftChain]
    have hx : is_or_compound x = false := hxs x (by simp)
    have hrest : ∀ l ∈ xs, is_or_compound l = false := fun l hl => hxs l (by simp [hl])
    have : leaves (orNode e x) = L ++ [x] := by
      rw [leaves_orNode, hL, leaves_of_not_or hx]
    have := ih hrest (orNode e x) (L ++ [x]) this
    simpa [List.append_assoc] using this

/-- The left-to-right leaves of a right-nested chain over non-compound
leaf conjuncts. -/
theorem leaves_rightChain {xs : List Expr} (hxs : ∀ l ∈ xs, is_or_compound l = false) :
    ∀ e : Expr, is_or_compound e = false → leaves (rightChain e xs) = e :: xs := by
  induction xs with
  | nil => intro e he; simp [rightChain, leaves_of_not_or he]
  | cons x xs ih =>
    intro e he
    rw [rightChain, leaves_orNode, leaves_of_not_or he]
    have hx : is_or_compound x = false := hxs x (by simp)
    have hrest : ∀ l ∈ xs, is_or_compound l = false := fun l hl => hxs l (by simp [hl])
    simp [ih hrest x hx]

/-- Binary-predicate case, column reference as child 0. -/
theorem build_binary_slot_left {ctx : Ctx} {d : ExprData} {c0 c1 : Expr} {sd : SlotDescriptor}
    (hn : d.node_type = TExprNodeType.BINARY_PRED)
    (h0 : c0.node_type = TExprNodeType.SLOT_REF)
    (hsd : get_slot_desc ctx.tuple_desc c0.slot_id = some sd)
    (hlit : is_literal_node c1 = true) (st : TState) :
    build_disjuncts_list ctx (Expr.node d [c0, c1]) st
      = ({ st with disjuncts := st.disjuncts ++
            [ExtPredicate.binary TExprNodeType.BINARY_PRED sd.col_name sd.ptype d.op
              (ExtLiteral.mk c1.etype (get_value c1))] }, Status.OK) := by
  rw [build_disjuncts_list.eq_def]
  simp [hn, h0, hsd, hlit]

/-- Binary-predicate case, column reference as child 1 (literal on the
left): the operator is still taken verbatim from the node. -/
theorem build_binary_slot_right {ctx : Ctx} {d : ExprData} {c0 c1 : Expr} {sd : SlotDescriptor}
    (hn : d.node_type = TExprNodeType.BINARY_PRED)
    (h0 : c0.node_type ≠ TExprNodeType.SLOT_REF)
    (h1 : c1.node_type = TExprNodeType.SLOT_REF)
    (hsd : get_slot_desc ctx.tuple_desc c1.slot_id = some sd)
    (hlit : is_literal_node c0 = true) (st : TState) :
    build_disjuncts_list ctx (Expr.node d [c0, c1]) st
      = ({ st with disjuncts := st.disjuncts ++
            [ExtPredicate.binary TExprNodeType.BINARY_PRED sd.col_name sd.ptype d.op
              (ExtLiteral.mk c0.etype (get_value c0))] }, Status.OK) := by
  rw [build_disjuncts_list.eq_def]
  simp [hn, h0, h1, hsd, hlit]

/-- Binary-predicate case when the referenced slot does not resolve. -/
theorem build_binary_unresolved {ctx : Ctx} {d : ExprData} {c0 c1 : Expr}
    (hn : d.node_type = TExprNodeType.BINARY_PRED)
    (h0 : c0.node_type = TExprNodeType.SLOT_REF)
    (hsd : get_slot_desc ctx.tuple_desc c0.slot_id = none) (st : TState) :
    build_disjuncts_list ctx (Expr.node d [c0, c1]) st
      = (st, Status.Error "build disjuncts failed: slot_desc is null") := by
  rw [build_disjuncts_list.eq_def]
  simp [hn, h0, hsd]

/-- esquery case from an already-failed state: validation is skipped, the
predicate is appended, and the call returns OK while the failing status
stays in the translator state. -/
theorem build_esquery_already_failed {ctx : Ctx} {d : ExprData} {cs : List Expr}
    (hn : d.node_type = TExprNodeType.FUNCTION_CALL) (hf : d.fname = "esquery")
    (st : TState) (hst : st.es_query_status.ok = false) :
    build_disjuncts_list ctx (Expr.node d cs) st
      = ({ st with disjuncts := st.disjuncts ++ [esquery_predicate (Expr.node d cs)] },
         Status.OK) := by
  rw [build_disjuncts_list.eq_def]
  simp [hn, hf, is_match_func_node, hst]

/-- esquery case from a clean state when the validator rejects: the failing
status is recorded and returned. -/
theorem build_esquery_check_fails {ctx : Ctx} {d : ExprData} {cs : List Expr} {msg : String}
    (hn : d.node_type = TExprNodeType.FUNCTION_CALL) (hf : d.fname = "esquery")
    (hchk : ctx.check_es_query (esquery_predicate (Expr.node d cs)) = Status.Error msg)
    (st : TState) (hst : st.es_query_status = Status.OK) :
    build_disjuncts_list ctx (Expr.node d cs) st
      = ({ st with es_query_status := Status.Error msg }, Status.Error msg) := by
  rw [build_disjuncts_list.eq_def]
  simp [hn, hf, is_match_func_node, hchk, hst, Status.ok]

/-- esquery case from a clean state when the validator accepts. -/
theorem build_esquery_check_ok {ctx : Ctx} {d : ExprData} {cs : List Expr}
    (hn : d.node_type = TExprNodeType.FUNCTION_CALL) (hf : d.fname = "esquery")
    (hchk : ctx.check_es_query (esquery_predicate (Expr.node d cs)) = Status.OK)
    (st : TState) (hst : st.es_query_status = Status.OK) :
    build_disjuncts_list ctx (Expr.node d cs) st
      = ({ disjuncts := st.disjuncts ++ [esquery_predicate (Expr.node d cs)],
           es_query_status := Status.OK }, Status.OK) := by
  rw [build_disjuncts_list.eq_def]
  simp [hn, hf, is_match_func_node, hchk, hst, Status.ok]

/-- like case, string-typed non-column operand as child 1: succeeds without
any literal-node check. -/
theorem build_like_slot_left {ctx : Ctx} {d : ExprData} {c0 c1 : Expr} {sd : SlotDescriptor}
    (hn : d.node_type = TExprNodeType.FUNCTION_CALL) (hf : d.fname = "like")
    (h0 : c0.node_type = TExprNodeType.SLOT_REF)
    (hsd : get_slot_desc ctx.tuple_desc c0.slot_id = some sd)
    (hty : c1.etype = PrimitiveType.TYPE_VARCHAR ∨ c1.etype = PrimitiveType.TYPE_CHAR)
    (st : TState) :
    build_disjuncts_list ctx (Expr.node d [c0, c1]) st
      = ({ st with disjuncts := st.disjuncts ++
            [ExtPredicate.like TExprNodeType.LIKE_PRED sd.col_name sd.ptype
              (ExtLiteral.mk c1.etype (get_value c1))] }, Status.OK) := by
  rw [build_disjuncts_list.eq_def]
  rcases hty with hty | hty <;>
    simp [hn, hf, is_match_func_node, h0, hsd, hty]

/-- like case with a non-string-typed operand: fails. -/
theorem build_like_not_string {ctx : Ctx} {d : ExprData} {c0 c1 : Expr} {sd : SlotDescriptor}
    (hn : d.node_type = TExprNodeType.FUNCTION_CALL) (hf : d.fname = "like")
    (h0 : c0.node_type = TExprNodeType.SLOT_REF)
    (hsd : get_slot_desc ctx.tuple_desc c0.slot_id = some sd)
    (hty1 : c1.etype ≠ PrimitiveType.TYPE_VARCHAR)
    (hty2 : c1.etype ≠ PrimitiveType.TYPE_CHAR)
    (st : TState) :
    build_disjuncts_list ctx (Expr.node d [c0, c1]) st
      = (st, Status.Error "build disjuncts failed: like value is not a string") := by
  rw [build_disjuncts_list.eq_def]
  simp [hn, hf, is_match_func_node, h0, hsd, hty1, hty2]

/-- A null element anywhere in the backing set fails the extraction. -/
theorem extract_in_values_of_mem_none {t : PrimitiveType} {l : List (Option RawValue)}
    (h : none ∈ l) : extract_in_values t l = none := by
  induction l with
  | nil => simp at h
  | cons a l ih =>
    match a with
    | none => rfl
    | some v =>
      have : none ∈ l := by simpa using h
      simp [extract_in_values, ih this]

/-- Without nulls, extraction wraps every element in set order, tagged with
the column type. -/
theorem extract_in_values_map_some (t : PrimitiveType) (vs : List RawValue) :
    extract_in_values t (vs.map some) = some (vs.map (fun v => ExtLiteral.mk t v)) := by
  induction vs with
  | nil => rfl
  | cons v vs ih => simp [extract_in_values, ih]

/-- IN case with a null element in the backing set: fails. -/
theorem build_in_null {ctx : Ctx} {d : ExprData} {c0 : Expr} {cs : List Expr}
    {sd : SlotDescriptor}
    (hn : d.node_type = TExprNodeType.IN_PRED)
    (hop : d.op = TExprOpcode.FILTER_IN ∨ d.op = TExprOpcode.FILTER_NOT_IN)
    (hslot : type_without_cast c0 = TExprNodeType.SLOT_REF)
    (hsd : get_slot_desc ctx.tuple_desc c0.slot_id = some sd)
    (hty : c0.etype = sd.ptype ∨ ignore_cast sd.ptype c0.etype = true)
    (hnull : none ∈ d.hset) (st : TState) :
    build_disjuncts_list ctx (Expr.node d (c0 :: cs)) st
      = (st, Status.Error "build disjuncts failed: hybird set has a null value") := by
  rw [build_disjuncts_list.eq_def]
  rcases hop with hop | hop <;> rcases hty with hty | hty <;>
    simp [hn, hop, is_match_func_node, hslot, hsd, hty,
      extract_in_values_of_mem_none hnull]

/-- IN case with a null-free backing set: succeeds, one literal per element
in set order, each tagged with the resolved column's type. -/
theorem build_in_ok {ctx : Ctx} {d : ExprData} {c0 : Expr} {cs : List Expr}
    {sd : SlotDescriptor} {vs : List RawValue}
    (hn : d.node_type = TExprNodeType.IN_PRED)
    (hop : d.op = TExprOpcode.FILTER_IN ∨ d.op = TExprOpcode.FILTER_NOT_IN)
    (hslot : type_without_cast c0 = TExprNodeType.SLOT_REF)
    (hsd : get_slot_desc ctx.tuple_desc c0.slot_id = some sd)
    (hty : c0.etype = sd.ptype ∨ ignore_cast sd.ptype c0.etype = true)
    (hvals : d.hset = vs.map some) (st : TState) :
    build_disjuncts_list ctx (Expr.node d (c0 :: cs)) st
      = ({ st with disjuncts := st.disjuncts ++
            [ExtPredicate.inPred TExprNodeType.IN_PRED d.not_in sd.col_name sd.ptype
              (vs.map (fun v => ExtLiteral.mk sd.ptype v))] }, Status.OK) := by
  rw [build_disjuncts_list.eq_def]
  rcases hop with hop | hop <;> rcases hty with hty | hty <;>
    simp [hn, hop, is_match_func_node, hslot, hsd, hty, hvals,
      extract_in_values_map_some]

/-- IN case with a type mismatch the cast rules do not tolerate: fails. -/
theorem build_in_cast_incompat {ctx : Ctx} {d : ExprData} {c0 : Expr} {cs : List Expr}
    {sd : SlotDescriptor}
    (hn : d.node_type = TExprNodeType.IN_PRED)
    (hop : d.op = TExprOpcode.FILTER_IN ∨ d.op = TExprOpcode.FILTER_NOT_IN)
    (hslot : type_without_cast c0 = TExprNodeType.SLOT_REF)
    (hsd : get_slot_desc ctx.tuple_desc c0.slot_id = some sd)
    (hdiff : c0.etype ≠ sd.ptype)
    (hcast : ignore_cast sd.ptype c0.etype = false) (st : TState) :
    build_disjuncts_list ctx (Expr.node d (c0 :: cs)) st
      = (st, Status.Error "build disjuncts failed") := by
  rw [build_disjuncts_list.eq_def]
  rcases hop with hop | hop <;>
    simp [hn, hop, is_match_func_node, hslot, hsd, hdiff, hcast]

/-- An incompatible type pairing makes `ignore_cast` reject. -/
theorem ignore_cast_eq_false {a b : PrimitiveType}
    (hd : ¬(is_date_type a = true ∧ is_date_type b = true))
    (hs : ¬(is_string_type a = true ∧ is_string_type b = true)) :
    ignore_cast a b = false := by
  unfold ignore_cast
  rcases h1 : is_date_type a <;> rcases h2 : is_date_type b <;>
    rcases h3 : is_string_type a <;> rcases h4 : is_string_type b <;> simp_all

/-- Model of `find?` returns the first element satisfying the test, scanning left to
right past non-matching elements. -/
theorem find_first_append {p : SlotDescriptor → Bool} {pre : List SlotDescriptor}
    {sd : SlotDescriptor} (post : List SlotDescriptor)
    (hpre : ∀ s ∈ pre, p s = false) (hsd : p sd = true) :
    List.find? p (pre ++ sd :: post) = some sd := by
  induction pre with
  | nil => simp [List.find?, hsd]
  | cons a pre ih =>
    have ha : p a = false := hpre a (by simp)
    have hrest : ∀ s ∈ pre, p s = false := fun s hs => hpre s (by simp [hs])
    rw [List.cons_append, List.find?_cons_of_neg]
    · exact ih hrest
    · simp [ha]

/-- Resolution scans the schema in order and stops at the first slot whose
identifier matches. -/
theorem get_slot_desc_first_match {pre : List SlotDescriptor} {sd : SlotDescriptor}
    {sid : Int} (post : List SlotDescriptor)
    (hpre : ∀ s ∈ pre, s.id ≠ sid) (hsd : sd.id = sid) :
    get_slot_desc ⟨pre ++ sd :: post⟩ sid = some sd := by
  unfold get_slot_desc
  exact find_first_append post (fun s hs => beq_eq_false_iff_ne.mpr (hpre s hs))
    (beq_iff_eq.mpr hsd)

/-! ### The claims -/

/-- Claim C3: for every comparison node with one column-reference child and
one literal child, the emitted BinaryPredicate carries the node's operator
code verbatim, whether the column reference is the left or the right
child; the operator is never flipped when the literal appears on the
left. -/
theorem C3_binary_operator_verbatim (ctx : Ctx) (d : ExprData) (c0 c1 : Expr)
    (sd : SlotDescriptor) (st : TState)
    (hn : d.node_type = TExprNodeType.BINARY_PRED) :
    (c0.node_type = TExprNodeType.SLOT_REF →
      get_slot_desc ctx.tuple_desc c0.slot_id = some sd →
      is_literal_node c1 = true →
      build_disjuncts_list ctx (Expr.node d [c0, c1]) st
        = ({ st with disjuncts := st.disjuncts ++
              [ExtPredicate.binary TExprNodeType.BINARY_PRED sd.col_name sd.ptype d.op
                (ExtLiteral.mk c1.etype (get_value c1))] }, Status.OK))
    ∧ (c0.node_type ≠ TExprNodeType.SLOT_REF → c1.node_type = TExprNodeType.SLOT_REF →
      get_slot_desc ctx.tuple_desc c1.slot_id = some sd →
      is_literal_node c0 = true →
      build_disjuncts_list ctx (Expr.node d [c0, c1]) st
        = ({ st with disjuncts := st.disjuncts ++
              [ExtPredicate.binary TExprNodeType.BINARY_PRED sd.col_name sd.ptype d.op
                (ExtLiteral.mk c0.etype (get_value c0))] }, Status.OK)) :=
  ⟨fun h0 hsd hlit => build_binary_slot_left hn h0 hsd hlit st,
   fun h0 h1 hsd hlit => build_binary_slot_right hn h0 h1 hsd hlit st⟩

/-- Witness for C3: `price > 10` and `5 > price` both record the node's
`GT` operator verbatim. -/
theorem C3_binary_operator_verbatim_witness :
    build_disjuncts_list ctxOkHook leafGtW { disjuncts := [], es_query_status := Status.OK }
      = ({ disjuncts := [descGtW], es_query_status := Status.OK }, Status.OK)
    ∧ build_disjuncts_list ctxOkHook
        (binPredE TExprOpcode.GT (intLitE PrimitiveType.TYPE_INT 5)
          (slotRefE 1 PrimitiveType.TYPE_DOUBLE))
        { disjuncts := [], es_query_status := Status.OK }
      = (⟨[ExtPredicate.binary TExprNodeType.BINARY_PRED "price"
            PrimitiveType.TYPE_DOUBLE TExprOpcode.GT
            ⟨PrimitiveType.TYPE_INT, RawValue.rInt 5⟩], Status.OK⟩, Status.OK) :=
  ⟨(C3_binary_operator_verbatim ctxOkHook
      { baseData with
          node_type := TExprNodeType.BINARY_PRED
          op := TExprOpcode.GT
          etype := PrimitiveType.TYPE_BOOLEAN }
      (slotRefE 1 PrimitiveType.TYPE_DOUBLE) (intLitE PrimitiveType.TYPE_INT 10)
      sdPrice { disjuncts := [], es_query_status := Status.OK } rfl).1 rfl rfl rfl,
   (C3_binary_operator_verbatim ctxOkHook
      { baseData with
          node_type := TExprNodeType.BINARY_PRED
          op := TExprOpcode.GT
          etype := PrimitiveType.TYPE_BOOLEAN }
      (intLitE PrimitiveType.TYPE_INT 5) (slotRefE 1 PrimitiveType.TYPE_DOUBLE)
      sdPrice { disjuncts := [], es_query_status := Status.OK } rfl).2
      (by decide) rfl rfl rfl⟩

/-- Claim C5: a set-membership node whose backing value set contains a null
element at any position fails translation, even if every other element is
valid. -/
theorem C5_membership_null_rejected (ctx : Ctx) (d : ExprData) (c0 : Expr) (cs : List Expr)
    (sd : SlotDescriptor) (st : TState)
    (hn : d.node_type = TExprNodeType.IN_PRED)
    (hop : d.op = TExprOpcode.FILTER_IN ∨ d.op = TExprOpcode.FILTER_NOT_IN)
    (hslot : type_without_cast c0 = TExprNodeType.SLOT_REF)
    (hsd : get_slot_desc ctx.tuple_desc c0.slot_id = some sd)
    (hty : c0.etype = sd.ptype ∨ ignore_cast sd.ptype c0.etype = true)
    (hnull : none ∈ d.hset) :
    build_disjuncts_list ctx (Expr.node d (c0 :: cs)) st
      = (st, Status.Error "build disjuncts failed: hybird set has a null value") :=
  build_in_null hn hop hslot hsd hty hnull st

/-- Witness for C5: `count_col IN (1, NULL, 3)` fails. -/
theorem C5_membership_null_rejected_witness :
    none ∈ inNullData.hset
    ∧ build_disjuncts_list ctxOkHook
        (Expr.node inNullData [slotRefE 3 PrimitiveType.TYPE_INT])
        { disjuncts := [], es_query_status := Status.OK }
      = ({ disjuncts := [], es_query_status := Status.OK },
         Status.Error "build disjuncts failed: hybird set has a null value") :=
  ⟨by decide,
   C5_membership_null_rejected ctxOkHook inNullData (slotRefE 3 PrimitiveType.TYPE_INT) []
     sdCount { disjuncts := [], es_query_status := Status.OK } rfl (Or.inl rfl) rfl rfl
     (Or.inl rfl) (by decide)⟩

/-- Claim C6: a successfully translated set-membership node emits one Literal
Value per set element, in the set's native iteration order, each tagged
with the resolved column's type. -/
theorem C6_membership_success_shape (ctx : Ctx) (d : ExprData) (c0 : Expr) (cs : List Expr)
    (sd : SlotDescriptor) (st : TState) (vs : List RawValue)
    (hn : d.node_type = TExprNodeType.IN_PRED)
    (hop : d.op = TExprOpcode.FILTER_IN ∨ d.op = TExprOpcode.FILTER_NOT_IN)
    (hslot : type_without_cast c0 = TExprNodeType.SLOT_REF)
    (hsd : get_slot_desc ctx.tuple_desc c0.slot_id = some sd)
    (hty : c0.etype = sd.ptype ∨ ignore_cast sd.ptype c0.etype = true)
    (hvals : d.hset = vs.map some) :
    build_disjuncts_list ctx (Expr.node d (c0 :: cs)) st
      = ({ st with disjuncts := st.disjuncts ++
            [ExtPredicate.inPred TExprNodeType.IN_PRED d.not_in sd.col_name sd.ptype
              (vs.map (fun v => ExtLiteral.mk sd.ptype v))] }, Status.OK)
    ∧ (vs.map (fun v => ExtLiteral.mk sd.ptype v)).length = d.hset.length
    ∧ ∀ l ∈ vs.map (fun v => ExtLiteral.mk sd.ptype v), l.lit_type = sd.ptype := by
  refine ⟨build_in_ok hn hop hslot hsd hty hvals st, ?_, ?_⟩
  · simp [hvals]
  · intro l hl
    simp only [List.mem_map] at hl
    obtain ⟨v, hv, rfl⟩ := hl
    rfl

/-- Witness for C6: `count_col IN (1, 2, 3)` emits an InPredicate with the
three values in set order, each tagged with the column type `TYPE_INT`. -/
theorem C6_membership_success_shape_witness :
    build_disjuncts_list ctxOkHook
        (Expr.node inOkData [slotRefE 3 PrimitiveType.TYPE_INT])
        { disjuncts := [], es_query_status := Status.OK }
      = (⟨[ExtPredicate.inPred TExprNodeType.IN_PRED false "count_col"
            PrimitiveType.TYPE_INT
            [⟨PrimitiveType.TYPE_INT, RawValue.rInt 1⟩,
             ⟨PrimitiveType.TYPE_INT, RawValue.rInt 2⟩,
             ⟨PrimitiveType.TYPE_INT, RawValue.rInt 3⟩]], Status.OK⟩, Status.OK) :=
  (C6_membership_success_shape ctxOkHook inOkData (slotRefE 3 PrimitiveType.TYPE_INT) []
    sdCount { disjuncts := [], es_query_status := Status.OK }
    [RawValue.rInt 1, RawValue.rInt 2, RawValue.rInt 3]
    rfl (Or.inl rfl) rfl rfl (Or.inl rfl) rfl).1

/-- Claim C7: a set-membership node whose column-side child's type differs
from the resolved column's type translates successfully only when both
types are date-family or both are string-family; any other pairing fails. -/
theorem C7_membership_cast_tolerance (ctx : Ctx) (d : ExprData) (c0 : Expr) (cs : List Expr)
    (sd : SlotDescriptor) (st : TState)
    (hn : d.node_type = TExprNodeType.IN_PRED)
    (hop : d.op = TExprOpcode.FILTER_IN ∨ d.op = TExprOpcode.FILTER_NOT_IN)
    (hslot : type_without_cast c0 = TExprNodeType.SLOT_REF)
    (hsd : get_slot_desc ctx.tuple_desc c0.slot_id = some sd)
    (hdiff : c0.etype ≠ sd.ptype) :
    (¬((is_date_type sd.ptype = true ∧ is_date_type c0.etype = true)
        ∨ (is_string_type sd.ptype = true ∧ is_string_type c0.etype = true)) →
      build_disjuncts_list ctx (Expr.node d (c0 :: cs)) st
        = (st, Status.Error "build disjuncts failed"))
    ∧ (∀ vs : List RawValue, d.hset = vs.map some →
        ((is_date_type sd.ptype = true ∧ is_date_type c0.etype = true)
          ∨ (is_string_type sd.ptype = true ∧ is_string_type c0.etype = true)) →
        build_disjuncts_list ctx (Expr.node d (c0 :: cs)) st
          = ({ st with disjuncts := st.disjuncts ++
                [ExtPredicate.inPred TExprNodeType.IN_PRED d.not_in sd.col_name sd.ptype
                  (vs.map (fun v => ExtLiteral.mk sd.ptype v))] }, Status.OK)) := by
  constructor
  · intro hincompat
    have hcast : ignore_cast sd.ptype c0.etype = false :=
      ignore_cast_eq_false (fun h => hincompat (Or.inl h)) (fun h => hincompat (Or.inr h))
    exact build_in_cast_incompat hn hop hslot hsd hdiff hcast st
  · intro vs hvals hcompat
    have hcast : ignore_cast sd.ptype c0.etype = true := by
      unfold ignore_cast
      rcases hcompat with ⟨h1, h2⟩ | ⟨h1, h2⟩ <;> simp [h1, h2]
    exact build_in_ok hn hop hslot hsd (Or.inr hcast) hvals st

/-- Witness for C7: a BIGINT-typed column-side child over the INT column
`count_col` (an int-to-bigint cast) fails the membership translation. -/
theorem C7_membership_cast_tolerance_witness :
    PrimitiveType.TYPE_BIGINT ≠ PrimitiveType.TYPE_INT
    ∧ build_disjuncts_list ctxOkHook
        (Expr.node inOkData [slotRefE 3 PrimitiveType.TYPE_BIGINT])
        { disjuncts := [], es_query_status := Status.OK }
      = ({ disjuncts := [], es_query_status := Status.OK },
         Status.Error "build disjuncts failed") :=
  ⟨by decide,
   (C7_membership_cast_tolerance ctxOkHook inOkData (slotRefE 3 PrimitiveType.TYPE_BIGINT) []
     sdCount { disjuncts := [], es_query_status := Status.OK } rfl (Or.inl rfl) rfl rfl
     (by decide)).1 (by decide)⟩

/-- Claim C8: column-reference resolution matches schema entries strictly by
stable identifier, never by name: a resolved slot's identifier equals the
reference's identifier; name collisions do not matter; and with no
identifier match the translation fails. -/
theorem C8_resolution_by_identifier (td : TupleDescriptor) (sid : Int) :
    (∀ sd : SlotDescriptor, get_slot_desc td sid = some sd → sd.id = sid ∧ sd ∈ td.slots)
    ∧ ((∀ s ∈ td.slots, s.id ≠ sid) → get_slot_desc td sid = none)
    ∧ (∀ a b : SlotDescriptor, a.id ≠ sid → b.id = sid → a.col_name = b.col_name →
        get_slot_desc ⟨[a, b]⟩ sid = some b)
    ∧ (∀ (hook : ExtPredicate → Status) (d : ExprData) (c0 c1 : Expr) (st : TState),
        d.node_type = TExprNodeType.BINARY_PRED →
        c0.node_type = TExprNodeType.SLOT_REF →
        (∀ s ∈ td.slots, s.id ≠ c0.slot_id) →
        build_disjuncts_list ⟨td, hook⟩ (Expr.node d [c0, c1]) st
          = (st, Status.Error "build disjuncts failed: slot_desc is null")) := by
  refine ⟨?_, ?_, ?_, ?_⟩
  · intro sd h
    refine ⟨?_, List.mem_of_find?_eq_some h⟩
    have := List.find?_some h
    simpa using this
  · intro hnone
    unfold get_slot_desc
    rw [List.find?_eq_none]
    intro s hs
    simpa using hnone s hs
  · intro a b ha hb _
    have ha2 : (a.id == sid) = false := beq_eq_false_iff_ne.mpr ha
    have hb2 : (b.id == sid) = true := beq_iff_eq.mpr hb
    unfold get_slot_desc
    simp [List.find?, ha2, hb2]
  · intro hook d c0 c1 st hn h0 hnone
    have hsd : get_slot_desc td c0.slot_id = none := by
      unfold get_slot_desc
      rw [List.find?_eq_none]
      intro s hs
      simpa using hnone s hs
    exact build_binary_unresolved hn h0 hsd st

/-- Witness for C8: in a schema with two identically named columns of
identifiers 10 and 11, a reference with identifier 11 resolves to the
second column; identifier 12 resolves to nothing and the binary case
fails. -/
theorem C8_resolution_by_identifier_witness :
    get_slot_desc twoNameSchema 11
      = some ⟨11, "dup_name", PrimitiveType.TYPE_BIGINT⟩
    ∧ build_disjuncts_list ⟨twoNameSchema, fun _ => Status.OK⟩
        (binPredE TExprOpcode.EQ (slotRefE 12 PrimitiveType.TYPE_INT)
          (intLitE PrimitiveType.TYPE_INT 0))
        { disjuncts := [], es_query_status := Status.OK }
      = ({ disjuncts := [], es_query_status := Status.OK },
         Status.Error "build disjuncts failed: slot_desc is null") :=
  ⟨(C8_resolution_by_identifier twoNameSchema 11).2.2.1
     ⟨10, "dup_name", PrimitiveType.TYPE_INT⟩ ⟨11, "dup_name", PrimitiveType.TYPE_BIGINT⟩
     (by decide) rfl rfl,
   (C8_resolution_by_identifier twoNameSchema 12).2.2.2 (fun _ => Status.OK)
     { baseData with
         node_type := TExprNodeType.BINARY_PRED
         op := TExprOpcode.EQ
         etype := PrimitiveType.TYPE_BOOLEAN }
     (slotRefE 12 PrimitiveType.TYPE_INT) (intLitE PrimitiveType.TYPE_INT 0)
     { disjuncts := [], es_query_status := Status.OK } rfl rfl (by decide)⟩

/-- Claim C9: rendering a date-tagged Literal Value first truncates the
underlying date-time value to calendar-date precision (the time of day is
dropped and the calendar fields are preserved) before formatting, while a
date-time-tagged value is formatted without truncation. -/
theorem C9_date_render_truncates (dv : DateTimeValue) :
    (ExtLiteral.mk PrimitiveType.TYPE_DATE (RawValue.rDateTime dv)).get_date_string
        = pad4 dv.year ++ "-" ++ pad2 dv.month ++ "-" ++ pad2 dv.day
    ∧ (ExtLiteral.mk PrimitiveType.TYPE_DATETIME (RawValue.rDateTime dv)).get_date_string
        = dv.to_string
    ∧ dv.cast_to_date.hour = 0 ∧ dv.cast_to_date.minute = 0 ∧ dv.cast_to_date.second = 0
    ∧ dv.cast_to_date.year = dv.year ∧ dv.cast_to_date.month = dv.month
    ∧ dv.cast_to_date.day = dv.day := by
  refine ⟨?_, rfl, rfl, rfl, rfl, rfl, rfl, rfl⟩
  simp [ExtLiteral.get_date_string, RawValue.asDateTime, DateTimeValue.cast_to_date,
    DateTimeValue.to_string]

/-- Claim C10: with several columns sharing one identifier, resolution
returns the earliest matching schema entry, and the emitted descriptor
takes its column name and type from that first entry. -/
theorem C10_duplicate_identifier_first_wins (pre post : List SlotDescriptor)
    (sd : SlotDescriptor) (sid : Int)
    (hpre : ∀ s ∈ pre, s.id ≠ sid) (hsd : sd.id = sid) :
    get_slot_desc ⟨pre ++ sd :: post⟩ sid = some sd
    ∧ (∀ (hook : ExtPredicate → Status) (d : ExprData) (c0 c1 : Expr) (st : TState),
        d.node_type = TExprNodeType.BINARY_PRED →
        c0.node_type = TExprNodeType.SLOT_REF → c0.slot_id = sid →
        is_literal_node c1 = true →
        build_disjuncts_list ⟨⟨pre ++ sd :: post⟩, hook⟩ (Expr.node d [c0, c1]) st
          = ({ st with disjuncts := st.disjuncts ++
                [ExtPredicate.binary TExprNodeType.BINARY_PRED sd.col_name sd.ptype d.op
                  (ExtLiteral.mk c1.etype (get_value c1))] }, Status.OK)) := by
  have hfind := get_slot_desc_first_match post hpre hsd
  refine ⟨hfind, ?_⟩
  intro hook d c0 c1 st hn h0 hid hlit
  have hsd2 : get_slot_desc (⟨pre ++ sd :: post⟩ : TupleDescriptor) c0.slot_id = some sd := by
    rw [hid]; exact hfind
  exact build_binary_slot_left hn h0 hsd2 hlit st

/-- Witness for C10: with identifier 7 on both schema entries, resolution
returns the first (`first_col`, INT) and the emitted descriptor uses its
name and type. -/
theorem C10_duplicate_identifier_first_wins_witness :
    get_slot_desc dupIdSchema 7 = some ⟨7, "first_col", PrimitiveType.TYPE_INT⟩
    ∧ build_disjuncts_list ⟨dupIdSchema, fun _ => Status.OK⟩
        (binPredE TExprOpcode.EQ (slotRefE 7 PrimitiveType.TYPE_INT)
          (intLitE PrimitiveType.TYPE_INT 0))
        { disjuncts := [], es_query_status := Status.OK }
      = (⟨[ExtPredicate.binary TExprNodeType.BINARY_PRED "first_col"
            PrimitiveType.TYPE_INT TExprOpcode.EQ
            ⟨PrimitiveType.TYPE_INT, RawValue.rInt 0⟩], Status.OK⟩, Status.OK) :=
  ⟨(C10_duplicate_identifier_first_wins []
      [⟨7, "second_col", PrimitiveType.TYPE_BIGINT⟩]
      ⟨7, "first_col", PrimitiveType.TYPE_INT⟩ 7 (by simp) rfl).1,
   (C10_duplicate_identifier_first_wins []
      [⟨7, "second_col", PrimitiveType.TYPE_BIGINT⟩]
      ⟨7, "first_col", PrimitiveType.TYPE_INT⟩ 7 (by simp) rfl).2 (fun _ => Status.OK)
     { baseData with
         node_type := TExprNodeType.BINARY_PRED
         op := TExprOpcode.EQ
         etype := PrimitiveType.TYPE_BOOLEAN }
     (slotRefE 7 PrimitiveType.TYPE_INT) (intLitE PrimitiveType.TYPE_INT 0)
     { disjuncts := [], es_query_status := Status.OK } rfl rfl rfl rfl⟩

theorem leafOk_binary {ctx : Ctx} {d : ExprData} {c0 c1 : Expr} {sd : SlotDescriptor}
    (hn : d.node_type = TExprNodeType.BINARY_PRED)
    (h0 : c0.node_type = TExprNodeType.SLOT_REF)
    (hsd : get_slot_desc ctx.tuple_desc c0.slot_id = some sd)
    (hlit : is_literal_node c1 = true) :
    leafOk ctx (Expr.node d [c0, c1])
      (ExtPredicate.binary TExprNodeType.BINARY_PRED sd.col_name sd.ptype d.op
        (ExtLiteral.mk c1.etype (get_value c1))) := by
  intro st hst
  rw [build_binary_slot_left hn h0 hsd hlit st]
  obtain ⟨dj, es⟩ := st
  cases hst
  rfl

/-- Claim C1: for every conjunct tree that is a left-nested or right-nested
chain of OR-compound nodes over leaf conjuncts `e :: xs`, each of which
classifies successfully (pointwise into the descriptors `ds`), translation
succeeds and the disjunct list gains exactly `ds` — one descriptor per leaf
conjunct, in the tree's left-to-right leaf order. -/
theorem C1_or_chain_flattening (ctx : Ctx) (e : Expr) (xs : List Expr)
    (ds : List ExtPredicate)
    (hok : List.Forall₂ (leafOk ctx) (e :: xs) ds)
    (hleaf : ∀ l ∈ e :: xs, is_or_compound l = false)
    (st : TState) (hst : st.es_query_status = Status.OK) :
    build_disjuncts_list ctx (leftChain e xs) st
        = ({ disjuncts := st.disjuncts ++ ds, es_query_status := Status.OK }, Status.OK)
    ∧ build_disjuncts_list ctx (rightChain e xs) st
        = ({ disjuncts := st.disjuncts ++ ds, es_query_status := Status.OK }, Status.OK)
    ∧ ds.length = (e :: xs).length
    ∧ leaves (leftChain e xs) = e :: xs
    ∧ leaves (rightChain e xs) = e :: xs := by
  cases hok with
  | @cons _ d _ ds' hx hrest =>
    have he : is_or_compound e = false := hleaf e (by simp)
    have hxs : ∀ l ∈ xs, is_or_compound l = false := fun l hl => hleaf l (by simp [hl])
    refine ⟨?_, ?_, ?_, ?_, ?_⟩
    · have h := producesOk_leftChain hrest e [d] hx st hst
      simpa using h
    · exact producesOk_rightChain hrest e d hx st hst
    · simp [List.Forall₂.length_eq hrest]
    · have h := leaves_leftChain hxs e [e] (leaves_of_not_or he)
      simpa using h
    · exact leaves_rightChain hxs e he

/-- Witness for C1: the two-leaf chains `(price > 10) OR (price < 2)` in
both nestings produce exactly the two binary descriptors in leaf order. -/
theorem C1_or_chain_flattening_witness :
    List.Forall₂ (leafOk ctxOkHook) [leafGtW, leafLtW] [descGtW, descLtW]
    ∧ (∀ l ∈ [leafGtW, leafLtW], is_or_compound l = false)
    ∧ build_disjuncts_list ctxOkHook (leftChain leafGtW [leafLtW])
        ⟨[], Status.OK⟩ = (⟨[descGtW, descLtW], Status.OK⟩, Status.OK)
    ∧ build_disjuncts_list ctxOkHook (rightChain leafGtW [leafLtW])
        ⟨[], Status.OK⟩ = (⟨[descGtW, descLtW], Status.OK⟩, Status.OK)
    ∧ leaves (leftChain leafGtW [leafLtW]) = [leafGtW, leafLtW] := by
  have hgt : leafOk ctxOkHook leafGtW descGtW :=
    @leafOk_binary ctxOkHook
      { baseData with
        node_type := TExprNodeType.BINARY_PRED
        op := TExprOpcode.GT
        etype := PrimitiveType.TYPE_BOOLEAN }
      (slotRefE 1 PrimitiveType.TYPE_DOUBLE) (intLitE PrimitiveType.TYPE_INT 10)
      sdPrice rfl rfl rfl rfl
  have hlt : leafOk ctxOkHook leafLtW descLtW :=
    @leafOk_binary ctxOkHook
      { baseData with
        node_type := TExprNodeType.BINARY_PRED
        op := TExprOpcode.LT
        etype := PrimitiveType.TYPE_BOOLEAN }
      (slotRefE 1 PrimitiveType.TYPE_DOUBLE) (intLitE PrimitiveType.TYPE_INT 2)
      sdPrice rfl rfl rfl rfl
  have hok : List.Forall₂ (leafOk ctxOkHook) [leafGtW, leafLtW] [descGtW, descLtW] :=
    List.Forall₂.cons hgt (List.Forall₂.cons hlt List.Forall₂.nil)
  have hleaf : ∀ l ∈ [leafGtW, leafLtW], is_or_compound l = false := by decide
  have h := C1_or_chain_flattening ctxOkHook leafGtW [leafLtW] [descGtW, descLtW] hok hleaf
    ⟨[], Status.OK⟩ rfl
  exact ⟨hok, hleaf, h.1, h.2.1, h.2.2.2.1⟩



/-- Counterexample to C2: from a translation state whose validation status
already failed, classifying a native-function (esquery) node does NOT
return the remembered failing status — it returns success (`Status.OK`),
contradicting the claim at this concrete input. -/
theorem C2_sticky_validation_counterexample :
    ((⟨[], Status.Error "es query failed"⟩ : TState).es_query_status
        = Status.Error "es query failed")
    ∧ is_match_func esqW = true
    ∧ (build_disjuncts_list ctxRejectHook esqW ⟨[], Status.Error "es query failed"⟩).2
        = Status.OK
    ∧ Status.OK ≠ Status.Error "es query failed" :=
  ⟨rfl, by decide, by decide, by decide⟩

/-- Claim C2 as amended: a validation failure is sticky in the translator
state — once failing, a later esquery classification skips the hook,
appends its predicate and returns success while the remembered failing
status stays in the state (it is never reset); the failure itself is
returned by the call that detects it and propagates through an enclosing
OR-compound, so the overall translation result of that pass is failure. -/
theorem C2_sticky_validation_amended (ctx : Ctx) (d : ExprData) (cs : List Expr)
    (msg : String)
    (hn : d.node_type = TExprNodeType.FUNCTION_CALL) (hf : d.fname = "esquery") :
    (∀ st : TState, st.es_query_status = Status.Error msg →
      build_disjuncts_list ctx (Expr.node d cs) st
        = ({ st with disjuncts := st.disjuncts ++ [esquery_predicate (Expr.node d cs)] },
           Status.OK))
    ∧ (∀ st : TState, st.es_query_status = Status.OK →
        ctx.check_es_query (esquery_predicate (Expr.node d cs)) = Status.Error msg →
        build_disjuncts_list ctx (Expr.node d cs) st
          = ({ st with es_query_status := Status.Error msg }, Status.Error msg))
    ∧ (∀ (e2 : Expr) (st : TState), st.es_query_status = Status.OK →
        ctx.check_es_query (esquery_predicate (Expr.node d cs)) = Status.Error msg →
        build_disjuncts_list ctx (orNode (Expr.node d cs) e2) st
          = ({ st with es_query_status := Status.Error msg }, Status.Error msg)) := by
  refine ⟨?_, ?_, ?_⟩
  · intro st hst
    exact build_esquery_already_failed hn hf st (by rw [hst]; rfl)
  · intro st hst hchk
    exact build_esquery_check_fails hn hf hchk st hst
  · intro e2 st hst hchk
    have h0 := build_esquery_check_fails hn hf hchk st hst
    rw [orNode, build_disjuncts_list.eq_1]
    simp [h0, Status.ok, is_match_func_node]

/-- Witness for the amended C2: with the rejecting hook, the three parts at
concrete inputs: an already-failed state yields OK with the failing status
preserved; a clean state records and returns the failure; the enclosing OR
returns the failure unchanged. -/
theorem C2_sticky_validation_amended_witness :
    build_disjuncts_list ctxRejectHook esqW ⟨[], Status.Error "es query failed"⟩
      = (⟨[esquery_predicate esqW], Status.Error "es query failed"⟩, Status.OK)
    ∧ build_disjuncts_list ctxRejectHook esqW ⟨[], Status.OK⟩
      = (⟨[], Status.Error "es query failed"⟩, Status.Error "es query failed")
    ∧ build_disjuncts_list ctxRejectHook (orNode esqW leafGtW) ⟨[], Status.OK⟩
      = (⟨[], Status.Error "es query failed"⟩, Status.Error "es query failed") := by
  have h := C2_sticky_validation_amended ctxRejectHook esqData
    [slotRefE 2 PrimitiveType.TYPE_VARCHAR, strLitE "query_payload"] "es query failed"
    rfl rfl
  exact ⟨h.1 ⟨[], Status.Error "es query failed"⟩ rfl, h.2.1 ⟨[], Status.OK⟩ rfl rfl,
    h.2.2 leafGtW ⟨[], Status.OK⟩ rfl rfl⟩

/-- Counterexample to C4: a `like` node whose non-column operand is another
column reference (not a literal node) of string type translates
SUCCESSFULLY — the like case never re-checks literal-ness, contradicting
the claim at this concrete input. -/
theorem C4_like_nonliteral_counterexample :
    is_literal_node (likeNonLitW.get_child 1) = false
    ∧ (likeNonLitW.get_child 1).node_type = TExprNodeType.SLOT_REF
    ∧ (likeNonLitW.get_child 1).etype = PrimitiveType.TYPE_VARCHAR
    ∧ (build_disjuncts_list ctxOkHook likeNonLitW ⟨[], Status.OK⟩).2 = Status.OK :=
  ⟨by decide, by decide, by decide, by decide⟩

/-- Claim C4 as amended: the like case reuses the column/operand selection
of the comparison case but replaces the literal-node check by a type
check: classification fails exactly when the selected operand's type is
not a string-family type, and succeeds for a string-typed operand even if
that operand is not a literal node. -/
theorem C4_like_type_check_only (ctx : Ctx) (d : ExprData) (c0 c1 : Expr)
    (sd : SlotDescriptor) (st : TState)
    (hn : d.node_type = TExprNodeType.FUNCTION_CALL) (hf : d.fname = "like")
    (h0 : c0.node_type = TExprNodeType.SLOT_REF)
    (hsd : get_slot_desc ctx.tuple_desc c0.slot_id = some sd) :
    (c1.etype ≠ PrimitiveType.TYPE_VARCHAR → c1.etype ≠ PrimitiveType.TYPE_CHAR →
      build_disjuncts_list ctx (Expr.node d [c0, c1]) st
        = (st, Status.Error "build disjuncts failed: like value is not a string"))
    ∧ (c1.etype = PrimitiveType.TYPE_VARCHAR ∨ c1.etype = PrimitiveType.TYPE_CHAR →
      build_disjuncts_list ctx (Expr.node d [c0, c1]) st
        = ({ st with disjuncts := st.disjuncts ++
              [ExtPredicate.like TExprNodeType.LIKE_PRED sd.col_name sd.ptype
                (ExtLiteral.mk c1.etype (get_value c1))] }, Status.OK)) :=
  ⟨fun h1 h2 => build_like_not_string hn hf h0 hsd h1 h2 st,
   fun hty => build_like_slot_left hn hf h0 hsd hty st⟩

/-- Witness for the amended C4: `like(name, 5)` fails with the non-string
error, while `like(name, name)` (a non-literal string operand) succeeds. -/
theorem C4_like_type_check_only_witness :
    build_disjuncts_list ctxOkHook
        (likeE (slotRefE 2 PrimitiveType.TYPE_VARCHAR) (intLitE PrimitiveType.TYPE_INT 5))
        ⟨[], Status.OK⟩
      = (⟨[], Status.OK⟩, Status.Error "build disjuncts failed: like value is not a string")
    ∧ build_disjuncts_list ctxOkHook likeNonLitW ⟨[], Status.OK⟩
      = (⟨[ExtPredicate.like TExprNodeType.LIKE_PRED "name" PrimitiveType.TYPE_VARCHAR
            ⟨PrimitiveType.TYPE_VARCHAR, RawValue.rInt 0⟩], Status.OK⟩, Status.OK) :=
  ⟨(C4_like_type_check_only ctxOkHook
      { baseData with
        node_type := TExprNodeType.FUNCTION_CALL
        fname := "like"
        etype := PrimitiveType.TYPE_BOOLEAN }
      (slotRefE 2 PrimitiveType.TYPE_VARCHAR) (intLitE PrimitiveType.TYPE_INT 5)
      sdName ⟨[], Status.OK⟩ rfl rfl rfl rfl).1 (by decide) (by decide),
   (C4_like_type_check_only ctxOkHook
      { baseData with
        node_type := TExprNodeType.FUNCTION_CALL
        fname := "like"
        etype := PrimitiveType.TYPE_BOOLEAN }
      (slotRefE 2 PrimitiveType.TYPE_VARCHAR) (slotRefE 2 PrimitiveType.TYPE_VARCHAR)
      sdName ⟨[], Status.OK⟩ rfl rfl rfl rfl).2 (Or.inl rfl)⟩

end EsPred
